import Mathlib

/-!
# PlexPing — verification of the monitor scripts

Shallow embedding of the PlexPing repository (`plex_monitor.py`,
`plex_selenium_monitor.py`, `plex_playwright_monitor.py`).  The three
scripts share one control-flow shape; `plex_monitor.py` is the richest
variant (browser setup → login → playback attempt) and is the one
embedded here.  The time-window predicate is textually identical in all
three files.

External effects (browser automation, HTTP posts, the wall clock) are
modelled by passing the outcome of each effectful step as an explicit
parameter and by recording the calls a run performs in the returned
record.
-/

namespace PlexPing

/-- Python truthiness of an optional string: `None` and `""` are falsy
(`if not self.plex_url`, `if not self.webhook_url` in the sources). -/
def pyTruthy : Option String → Bool
  | none => false
  | some s => !s.isEmpty

/-- The environment variables the scripts read (`os.getenv`).  `START_HOUR`
and `END_HOUR` are kept as already-parsed naturals (the scripts apply
`int(...)` with defaults 8 and 2). -/
structure Env where
  PLEX_URL : Option String
  PLEX_USERNAME : Option String
  PLEX_PASSWORD : Option String
  PLEX_DISCORD_WEBHOOK : Option String
  START_HOUR : Nat
  END_HOUR : Nat
deriving DecidableEq

/-- The monitor's per-run configuration, the fields `PlexBrowserMonitor.__init__`
stores on `self`. -/
structure Config where
  plex_url : Option String
  plex_username : Option String
  plex_password : Option String
  webhook_url : Option String
  start_hour : Nat
  end_hour : Nat
deriving DecidableEq

/-- `PlexBrowserMonitor.__init__`: copies the environment variables onto the
instance and raises `ValueError("Missing Plex URL.")` when `PLEX_URL` is
unset or empty.  A missing webhook only logs a warning. -/
def PlexBrowserMonitor.init (env : Env) : Except String Config :=
  if pyTruthy env.PLEX_URL then
    .ok { plex_url := env.PLEX_URL
          plex_username := env.PLEX_USERNAME
          plex_password := env.PLEX_PASSWORD
          webhook_url := env.PLEX_DISCORD_WEBHOOK
          start_hour := env.START_HOUR
          end_hour := env.END_HOUR }
  else
    .error "Missing Plex URL."

/-- `PlexBrowserMonitor.is_within_time_window` (identical in all three
scripts): pure function of the wall-clock hour and the two configured
hours, with the wrap-around branch when `start_hour < end_hour` fails. -/
def is_within_time_window (start_hour end_hour current_hour : Nat) : Bool :=
  if start_hour < end_hour then
    decide (start_hour ≤ current_hour ∧ current_hour < end_hour)
  else
    decide (current_hour ≥ start_hour ∨ current_hour < end_hour)

/-- Number of hours of the day for which the time window is active. -/
def activeHoursCount (start_hour end_hour : Nat) : Nat :=
  ((List.range 24).filter (fun h => is_within_time_window start_hour end_hour h)).length

/-- Outcome of `setup_browser`: the method catches every exception itself
and returns either a browser or `None`, so from `run_once`'s point of view
it either succeeds or yields `None`. -/
inductive SetupOutcome
  | ok
  | failed
deriving DecidableEq

/-- Outcome of the `login_to_plex(browser)` call inside `run_once`'s `try`
block: it returns `True`, returns `False`, or an exception propagates out
of the call (caught by `run_once`'s `except Exception`). -/
inductive LoginOutcome
  | success
  | failure
  | raises (msg : String)
deriving DecidableEq

/-- Outcome of the `attempt_to_play_media(browser)` call: a
`(success, play_message)` pair, or an exception propagating out of the
call. -/
inductive PlayOutcome
  | success (play_message : String)
  | failure (play_message : String)
  | raises (msg : String)
deriving DecidableEq

/-- The message templates `run_once` builds; `time` is the interpolated
`current_time.strftime(...)` text and `detail` the variable tail of the
template (empty where the template has none). -/
inductive MsgKind
  | browserInitFailed
  | loginFailed
  | playbackOK
  | playbackFailed
  | browserError
deriving DecidableEq

structure Message where
  kind : MsgKind
  time : String
  detail : String
deriving DecidableEq

/-- Severity of a message, read from its glyph in the source: the single
`✅` template is the OK report, every `⚠️` template is an alert/error. -/
inductive Severity
  | OK
  | WARN
  | ERROR
deriving DecidableEq

def severityOf : MsgKind → Severity
  | .playbackOK => .OK
  | _ => .ERROR

/-- The exact f-string text of each template in `plex_monitor.py`. -/
def render : Message → String
  | ⟨.browserInitFailed, t, _⟩ =>
      "⚠️ **Plex Browser Alert** ⚠️\nFailed to initialize browser at " ++ t
  | ⟨.loginFailed, t, _⟩ =>
      "⚠️ **Plex Browser Alert** ⚠️\nFailed to log in to Plex at " ++ t
  | ⟨.playbackOK, t, d⟩ =>
      "✅ **Plex Media Playback OK** ✅\nSuccessfully accessed and played media at " ++ t ++ "\n" ++ d
  | ⟨.playbackFailed, t, d⟩ =>
      "⚠️ **Plex Playback Alert** ⚠️\nFailed to play media at " ++ t ++ "\nError: " ++ d
  | ⟨.browserError, t, d⟩ =>
      "⚠️ **Plex Browser Error** ⚠️\nError during Plex check at " ++ t ++ "\nError: " ++ d

/-- What one call of `run_once` did: `raised` is the exception it let
propagate to its caller (if any), `sends` the arguments of its calls to
`send_discord_notification` in order, and the three flags record whether
`setup_browser`, `login_to_plex` and `attempt_to_play_media` were called. -/
structure RunResult where
  raised : Option String
  sends : List Message
  setupAttempted : Bool
  loginAttempted : Bool
  playAttempted : Bool
deriving DecidableEq

/-- `PlexBrowserMonitor.run_once` of `plex_monitor.py`:

* returns at once when `is_within_time_window` is false;
* calls `setup_browser`; on `None` sends the browser-init alert and returns;
* inside `try`: calls `login_to_plex`; on `False` sends the login alert and
  returns; otherwise calls `attempt_to_play_media` and sends either the OK
  report or the playback alert;
* `except Exception as e`: sends the browser-error alert carrying `str(e)`;
* `finally`: `browser.quit()` wrapped in its own bare `try/except: pass`,
  so nothing escapes from it.

Every path returns normally, hence `raised = none` throughout. -/
def run_once (cfg : Config) (current_hour : Nat) (t : String)
    (setup : SetupOutcome) (login : LoginOutcome) (play : PlayOutcome) : RunResult :=
  if is_within_time_window cfg.start_hour cfg.end_hour current_hour then
    match setup with
    | .failed =>
        { raised := none, sends := [⟨.browserInitFailed, t, ""⟩]
          setupAttempted := true, loginAttempted := false, playAttempted := false }
    | .ok =>
      match login with
      | .raises e =>
          { raised := none, sends := [⟨.browserError, t, e⟩]
            setupAttempted := true, loginAttempted := true, playAttempted := false }
      | .failure =>
          { raised := none, sends := [⟨.loginFailed, t, ""⟩]
            setupAttempted := true, loginAttempted := true, playAttempted := false }
      | .success =>
        match play with
        | .raises e =>
            { raised := none, sends := [⟨.browserError, t, e⟩]
              setupAttempted := true, loginAttempted := true, playAttempted := true }
        | .success d =>
            { raised := none, sends := [⟨.playbackOK, t, d⟩]
              setupAttempted := true, loginAttempted := true, playAttempted := true }
        | .failure d =>
            { raised := none, sends := [⟨.playbackFailed, t, d⟩]
              setupAttempted := true, loginAttempted := true, playAttempted := true }
  else
    { raised := none, sends := []
      setupAttempted := false, loginAttempted := false, playAttempted := false }

/-- One outbound HTTP post to the webhook. -/
structure Dispatch where
  url : String
  content : String
deriving DecidableEq

/-- `send_discord_notification(message)`: returns immediately when the
webhook URL is not configured (`if not self.webhook_url`), otherwise posts
the rendered message to the webhook; its own `try/except` means it never
raises. -/
def send_discord_notification (webhook_url : Option String) (message : Message) : List Dispatch :=
  if pyTruthy webhook_url then
    [⟨webhook_url.getD "", render message⟩]
  else
    []

/-- The outbound posts a whole `run_once` call performs: each message it
passes to `send_discord_notification`, filtered by webhook configuration. -/
def run_once_dispatches (cfg : Config) (current_hour : Nat) (t : String)
    (setup : SetupOutcome) (login : LoginOutcome) (play : PlayOutcome) : List Dispatch :=
  ((run_once cfg current_hour t setup login play).sends.map
    (send_discord_notification cfg.webhook_url)).flatten

/-- The best-effort fatal-error post of the `__main__` block: posted only
when the webhook env var is truthy; its surrounding bare `try/except: pass`
means it never raises. -/
def fatal_post (env : Env) (errText : String) : List Dispatch :=
  if pyTruthy env.PLEX_DISCORD_WEBHOOK then
    [⟨env.PLEX_DISCORD_WEBHOOK.getD "",
      "⚠️ **Plex Monitor Error** ⚠️\nThe monitoring script encountered an error: " ++ errText⟩]
  else
    []

/-- What the whole process did: its exit code, the `run_once` result when
one ran, and the fatal-error webhook post (empty when none was made). -/
structure MainResult where
  exitCode : Nat
  run : Option RunResult
  fatalPost : List Dispatch
deriving DecidableEq

/-- The `__main__` block of `plex_monitor.py`: construct the monitor and
call `run_once`; `except Exception as e` logs, best-effort posts the fatal
message, and then falls off the end of the script — there is no `sys.exit`
and no re-raise, so the interpreter exits with code 0 on every path. -/
def script_main (env : Env) (current_hour : Nat) (t : String)
    (setup : SetupOutcome) (login : LoginOutcome) (play : PlayOutcome) : MainResult :=
  match PlexBrowserMonitor.init env with
  | .error e => { exitCode := 0, run := none, fatalPost := fatal_post env e }
  | .ok cfg =>
    let r := run_once cfg current_hour t setup login play
    match r.raised with
    | some e => { exitCode := 0, run := some r, fatalPost := fatal_post env e }
    | none => { exitCode := 0, run := some r, fatalPost := [] }

/-- Modelled from the spec: the repository's `src/` has no HealthAggregator
(each script checks a single resource); §3 of the spec defines
`ProbeResult` with `resource_id`, `succeeded`, `detail`, `timestamp`. -/
structure ProbeResult where
  resource_id : String
  succeeded : Bool
  detail : String
  timestamp : Nat
deriving DecidableEq

/-- Modelled from the spec: the four values of `AggregatedStatus.overall`. -/
inductive Overall
  | ALL_OK
  | PARTIAL
  | ALL_FAILED
  | UNREACHABLE
deriving DecidableEq

/-- Modelled from the spec: HealthAggregator §4.2.  `connection_failed`
records a prior connection failure.  Empty input or a prior connection
failure → UNREACHABLE; all succeeded → ALL_OK; all failed (non-empty) →
ALL_FAILED; otherwise mixed → PARTIAL. -/
def aggregate (connection_failed : Bool) (results : List ProbeResult) : Overall :=
  if connection_failed || results.isEmpty then
    .UNREACHABLE
  else if results.all (fun r => r.succeeded) then
    .ALL_OK
  else if results.all (fun r => !r.succeeded) then
    .ALL_FAILED
  else
    .PARTIAL

/-- Modelled from the spec: NotificationPolicy's decision record §4.3. -/
structure NotificationDecision where
  send : Bool
  severity : Severity
  title : String
deriving DecidableEq

/-- Modelled from the spec: the fixed NotificationPolicy mapping of §4.3,
with the documented default `send = true` for ALL_OK. -/
def NotificationPolicy.decide : Overall → NotificationDecision
  | .UNREACHABLE => ⟨true, .ERROR, "Server Alert — unreachable"⟩
  | .ALL_FAILED => ⟨true, .ERROR, "Alert — failed to access any media/resource"⟩
  | .PARTIAL => ⟨true, .WARN, "Partial Access — some resources inaccessible"⟩
  | .ALL_OK => ⟨true, .OK, "Working — all resources accessible"⟩

/-! ## Helper lemmas -/

theorem all_eq_of_perm {l1 l2 : List ProbeResult} (p : ProbeResult → Bool)
    (h : l1.Perm l2) : l1.all p = l2.all p := by
  refine Bool.eq_iff_iff.mpr ?_
  simp only [List.all_eq_true]
  exact ⟨fun ha x hx => ha x (h.mem_iff.mpr hx), fun ha x hx => ha x (h.mem_iff.mp hx)⟩

theorem isEmpty_eq_of_perm {l1 l2 : List ProbeResult} (h : l1.Perm l2) :
    l1.isEmpty = l2.isEmpty := by
  cases l1 with
  | nil => simp [h.nil_eq.symm]
  | cons a l =>
    cases l2 with
    | nil => exact absurd h.symm.nil_eq (by simp)
    | cons b m => rfl

theorem win_always_active_of_eq (s h : Nat) : is_within_time_window s s h = true := by
  unfold is_within_time_window
  simp only [Nat.lt_irrefl, if_false]
  simp only [decide_eq_true_eq]
  omega

theorem run_once_raised_eq_none (cfg : Config) (hour : Nat) (t : String)
    (setup : SetupOutcome) (login : LoginOutcome) (play : PlayOutcome) :
    (run_once cfg hour t setup login play).raised = none := by
  unfold run_once
  split
  · cases setup <;> cases login <;> cases play <;> rfl
  · rfl

theorem flatten_map_nil {α β : Type} (f : α → List β) (l : List α)
    (h : ∀ a, f a = []) : (l.map f).flatten = [] := by
  induction l with
  | nil => rfl
  | cons a l ih => simp [h a, ih]

/-! ## Concrete instances used by the witnesses -/

def cfgEx : Config :=
  { plex_url := some "https://plex.example"
    plex_username := some "user"
    plex_password := some "pw"
    webhook_url := some "https://discord.example/webhook"
    start_hour := 8
    end_hour := 2 }

def cfgNoHook : Config :=
  { plex_url := some "https://plex.example"
    plex_username := some "user"
    plex_password := some "pw"
    webhook_url := none
    start_hour := 8
    end_hour := 2 }

def envNoUrl : Env :=
  { PLEX_URL := none
    PLEX_USERNAME := some "user"
    PLEX_PASSWORD := some "pw"
    PLEX_DISCORD_WEBHOOK := some "https://discord.example/webhook"
    START_HOUR := 8
    END_HOUR := 2 }

def pr_ok : ProbeResult := ⟨"movie", true, "Inception", 0⟩

def pr_fail : ProbeResult := ⟨"show", false, "no episodes", 0⟩

/-! ## Claim theorems -/

/-- C3: for all hours in 0..23, when `start_hour < end_hour` the window
check is true iff `start_hour ≤ h < end_hour`; otherwise (wrap-around) it
is true iff `h ≥ start_hour` or `h < end_hour`.  Pure function of the
hour and the two configured integers. -/
theorem time_window_characterization (s e h : Nat)
    (hs : s ≤ 23) (he : e ≤ 23) (hh : h ≤ 23) :
    (s < e → (is_within_time_window s e h = true ↔ s ≤ h ∧ h < e)) ∧
    (¬ s < e → (is_within_time_window s e h = true ↔ h ≥ s ∨ h < e)) := by
  unfold is_within_time_window
  constructor
  · intro hlt
    rw [if_pos hlt]
    simp only [decide_eq_true_eq]
  · intro hlt
    rw [if_neg hlt]
    simp only [decide_eq_true_eq]

theorem time_window_characterization_witness :
    ((8 < 22 → (is_within_time_window 8 22 10 = true ↔ 8 ≤ 10 ∧ 10 < 22)) ∧
     (¬ 8 < 22 → (is_within_time_window 8 22 10 = true ↔ 10 ≥ 8 ∨ 10 < 22))) ∧
    is_within_time_window 8 22 10 = true :=
  ⟨time_window_characterization 8 22 10 (by decide) (by decide) (by decide), by decide⟩

/-- C4 counterexample: with `start_hour = end_hour = 3` the `<` branch is
NOT taken (3 < 3 fails), the wrap-around branch `h ≥ 3 ∨ h < 3` holds for
every hour, and the window is active 24 hours of the day — not exactly 1
as the claim states. -/
theorem window_equal_hours_not_one :
    activeHoursCount 3 3 ≠ 1 ∧ activeHoursCount 3 3 = 24 := by decide

/-- C4 amended: when `start_hour == end_hour`, the check is active for all
24 hours of the day (the wrap-around branch applies and is trivially
true), not exactly 1. -/
theorem window_equal_hours_always_active (s : Nat) : activeHoursCount s s = 24 := by
  unfold activeHoursCount
  rw [List.filter_eq_self.mpr (fun a _ => win_always_active_of_eq s a)]
  exact List.length_range 24

/-- C2: outside the monitoring window `run_once` returns immediately:
no browser setup, no login, no playback probe, no message passed to
`send_discord_notification`, no outbound dispatch, no exception. -/
theorem run_once_skips_outside_window (cfg : Config) (hour : Nat) (t : String)
    (setup : SetupOutcome) (login : LoginOutcome) (play : PlayOutcome)
    (hw : is_within_time_window cfg.start_hour cfg.end_hour hour = false) :
    run_once cfg hour t setup login play =
      { raised := none, sends := [], setupAttempted := false
        loginAttempted := false, playAttempted := false } ∧
    run_once_dispatches cfg hour t setup login play = [] := by
  have h1 : run_once cfg hour t setup login play =
      { raised := none, sends := [], setupAttempted := false
        loginAttempted := false, playAttempted := false } := by
    unfold run_once
    rw [hw]
    rfl
  refine ⟨h1, ?_⟩
  unfold run_once_dispatches
  rw [h1]
  rfl

/-- C2 witness: the claim's own scenario, `start_hour = 8`, `end_hour = 2`,
clock at hour 3. -/
theorem run_once_skips_outside_window_witness :
    run_once cfgEx 3 "T" .ok .success (.success "played") =
      { raised := none, sends := [], setupAttempted := false
        loginAttempted := false, playAttempted := false } ∧
    run_once_dispatches cfgEx 3 "T" .ok .success (.success "played") = [] :=
  run_once_skips_outside_window cfgEx 3 "T" .ok .success (.success "played") (by decide)

/-- C9: every path through `run_once` calls `send_discord_notification`
zero times or exactly once, never more. -/
theorem run_once_at_most_one_send (cfg : Config) (hour : Nat) (t : String)
    (setup : SetupOutcome) (login : LoginOutcome) (play : PlayOutcome) :
    (run_once cfg hour t setup login play).sends.length ≤ 1 := by
  unfold run_once
  split
  · cases setup <;> cases login <;> cases play <;> simp
  · simp

/-- C1: once the time-window check has passed, every failure inside the
body of `run_once` — browser setup yielding no browser, a login failure, a
playback failure, or an exception propagating out of a step (caught by the
`except Exception` handler) — leaves `raised = none` (the run returns
normally) and attempts exactly one alert-severity notification whose
rendered text carries the failure's description (for a caught exception or
playback failure, the raw error text itself appears in the message). -/
theorem run_once_catches_and_notifies (cfg : Config) (hour : Nat) (t : String)
    (setup : SetupOutcome) (login : LoginOutcome) (play : PlayOutcome)
    (hw : is_within_time_window cfg.start_hour cfg.end_hour hour = true) :
    (run_once cfg hour t setup login play).raised = none ∧
    (setup = .failed →
      (run_once cfg hour t setup login play).sends = [⟨.browserInitFailed, t, ""⟩] ∧
      severityOf .browserInitFailed = .ERROR) ∧
    (∀ e, setup = .ok → login = .raises e →
      (run_once cfg hour t setup login play).sends = [⟨.browserError, t, e⟩] ∧
      severityOf .browserError = .ERROR ∧
      ∃ p, render ⟨.browserError, t, e⟩ = p ++ e) ∧
    (setup = .ok → login = .failure →
      (run_once cfg hour t setup login play).sends = [⟨.loginFailed, t, ""⟩] ∧
      severityOf .loginFailed = .ERROR) ∧
    (∀ e, setup = .ok → login = .success → play = .raises e →
      (run_once cfg hour t setup login play).sends = [⟨.browserError, t, e⟩] ∧
      severityOf .browserError = .ERROR ∧
      ∃ p, render ⟨.browserError, t, e⟩ = p ++ e) ∧
    (∀ d, setup = .ok → login = .success → play = .failure d →
      (run_once cfg hour t setup login play).sends = [⟨.playbackFailed, t, d⟩] ∧
      severityOf .playbackFailed = .ERROR ∧
      ∃ p, render ⟨.playbackFailed, t, d⟩ = p ++ d) := by
  refine ⟨run_once_raised_eq_none cfg hour t setup login play, ?_, ?_, ?_, ?_, ?_⟩
  · rintro rfl
    exact ⟨by simp [run_once, hw], rfl⟩
  · rintro e rfl rfl
    exact ⟨by simp [run_once, hw], rfl,
      "⚠️ **Plex Browser Error** ⚠️\nError during Plex check at " ++ t ++ "\nError: ", rfl⟩
  · rintro rfl rfl
    exact ⟨by simp [run_once, hw], rfl⟩
  · rintro e rfl rfl rfl
    exact ⟨by simp [run_once, hw], rfl,
      "⚠️ **Plex Browser Error** ⚠️\nError during Plex check at " ++ t ++ "\nError: ", rfl⟩
  · rintro d rfl rfl rfl
    exact ⟨by simp [run_once, hw], rfl,
      "⚠️ **Plex Playback Alert** ⚠️\nFailed to play media at " ++ t ++ "\nError: ", rfl⟩

/-- C1 witness: window active (hour 10 with the 8→2 wrap-around window), a
playback failure is caught and reported, and the run returns normally. -/
theorem run_once_catches_and_notifies_witness :
    (run_once cfgEx 10 "T" .ok .success (.failure "Play button not found")).raised = none ∧
    (run_once cfgEx 10 "T" .ok .success (.failure "Play button not found")).sends =
      [⟨.playbackFailed, "T", "Play button not found"⟩] :=
  ⟨(run_once_catches_and_notifies cfgEx 10 "T" .ok .success
      (.failure "Play button not found") (by decide)).1,
   ((run_once_catches_and_notifies cfgEx 10 "T" .ok .success
      (.failure "Play button not found") (by decide)).2.2.2.2.2
      "Play button not found" rfl rfl rfl).1⟩

/-- C5: inside the window, when the login/connection step fails — either
`login_to_plex` returns `False` or an exception propagates out of it —
exactly one ERROR-severity notification is produced (carrying the raw
error text when an exception carried one), the playback probe is never
called, the run ends normally, and with a configured webhook exactly one
outbound dispatch occurs. -/
theorem run_once_login_failure_one_error (cfg : Config) (hour : Nat) (t : String)
    (login : LoginOutcome) (play : PlayOutcome)
    (hw : is_within_time_window cfg.start_hour cfg.end_hour hour = true)
    (hl : login = .failure ∨ ∃ e, login = .raises e) :
    (run_once cfg hour t .ok login play).raised = none ∧
    (run_once cfg hour t .ok login play).sends.length = 1 ∧
    (∀ m ∈ (run_once cfg hour t .ok login play).sends, severityOf m.kind = .ERROR) ∧
    (run_once cfg hour t .ok login play).playAttempted = false ∧
    (∀ e, login = .raises e →
      (run_once cfg hour t .ok login play).sends = [⟨.browserError, t, e⟩]) ∧
    (login = .failure →
      (run_once cfg hour t .ok login play).sends = [⟨.loginFailed, t, ""⟩]) ∧
    (pyTruthy cfg.webhook_url = true →
      (run_once_dispatches cfg hour t .ok login play).length = 1) := by
  rcases hl with rfl | ⟨e, rfl⟩ <;>
    refine ⟨run_once_raised_eq_none cfg hour t _ _ play, ?_, ?_, ?_, ?_, ?_, ?_⟩ <;>
    simp_all [run_once, run_once_dispatches, send_discord_notification, severityOf]

/-- C5 witness: login returns `False` at hour 10; one ERROR notification,
no playback attempt, one dispatch on the configured webhook. -/
theorem run_once_login_failure_one_error_witness :
    (run_once cfgEx 10 "T" .ok .failure (.success "d")).sends.length = 1 ∧
    (run_once cfgEx 10 "T" .ok .failure (.success "d")).playAttempted = false ∧
    (run_once_dispatches cfgEx 10 "T" .ok .failure (.success "d")).length = 1 :=
  ⟨(run_once_login_failure_one_error cfgEx 10 "T" .failure (.success "d")
      (by decide) (Or.inl rfl)).2.1,
   (run_once_login_failure_one_error cfgEx 10 "T" .failure (.success "d")
      (by decide) (Or.inl rfl)).2.2.2.1,
   (run_once_login_failure_one_error cfgEx 10 "T" .failure (.success "d")
      (by decide) (Or.inl rfl)).2.2.2.2.2.2 rfl⟩

/-- C6 counterexample: with `PLEX_URL` unset the `__main__` block catches
the `ValueError`, best-effort posts the fatal message, and falls off the
end of the script — the process exits with code 0, not non-zero as the
claim states. -/
theorem script_main_missing_url_exits_zero :
    pyTruthy envNoUrl.PLEX_URL = false ∧
    (script_main envNoUrl 10 "T" .ok .success (.success "d")).exitCode = 0 ∧
    (script_main envNoUrl 10 "T" .ok .success (.success "d")).fatalPost =
      [⟨"https://discord.example/webhook",
        "⚠️ **Plex Monitor Error** ⚠️\nThe monitoring script encountered an error: Missing Plex URL."⟩] :=
  ⟨rfl, rfl, rfl⟩

/-- C6 amended: the process exits with code 0 on every path — including a
monitored-resource failure AND a missing target URL; the missing-URL case
performs no run and best-effort posts the fatal message to the webhook
before the (still zero-status) exit. -/
theorem script_main_exit_code (env : Env) (hour : Nat) (t : String)
    (setup : SetupOutcome) (login : LoginOutcome) (play : PlayOutcome) :
    (script_main env hour t setup login play).exitCode = 0 ∧
    (pyTruthy env.PLEX_URL = false →
      (script_main env hour t setup login play).run = none ∧
      (script_main env hour t setup login play).fatalPost =
        fatal_post env "Missing Plex URL.") := by
  have hinit : ∀ h : pyTruthy env.PLEX_URL = false,
      PlexBrowserMonitor.init env = .error "Missing Plex URL." := by
    intro h
    unfold PlexBrowserMonitor.init
    rw [h]
    rfl
  constructor
  · unfold script_main
    cases hi : PlexBrowserMonitor.init env with
    | error e => rfl
    | ok cfg =>
      simp only [run_once_raised_eq_none]
  · intro h
    unfold script_main
    rw [hinit h]
    exact ⟨rfl, rfl⟩

/-- C6 amended witness: missing URL at a concrete environment — exit code
0, no run, fatal post made. -/
theorem script_main_exit_code_witness :
    (script_main envNoUrl 10 "T" .ok .success (.success "d")).exitCode = 0 ∧
    (script_main envNoUrl 10 "T" .ok .success (.success "d")).run = none ∧
    (script_main envNoUrl 10 "T" .ok .success (.success "d")).fatalPost =
      fatal_post envNoUrl "Missing Plex URL." :=
  ⟨(script_main_exit_code envNoUrl 10 "T" .ok .success (.success "d")).1,
   ((script_main_exit_code envNoUrl 10 "T" .ok .success (.success "d")).2 rfl).1,
   ((script_main_exit_code envNoUrl 10 "T" .ok .success (.success "d")).2 rfl).2⟩

/-- C10: with no configured webhook (unset or empty), the notification
sender returns without any dispatch attempt and without raising, and a
whole run performs zero outbound dispatches whatever the outcome. -/
theorem no_webhook_no_dispatch (w : Option String) (message : Message)
    (hw : pyTruthy w = false) :
    send_discord_notification w message = [] ∧
    ∀ (cfg : Config) (hour : Nat) (t : String) (setup : SetupOutcome)
      (login : LoginOutcome) (play : PlayOutcome), cfg.webhook_url = w →
      run_once_dispatches cfg hour t setup login play = [] := by
  have hs : ∀ m, send_discord_notification w m = [] := by
    intro m
    unfold send_discord_notification
    rw [hw]
    rfl
  refine ⟨hs message, ?_⟩
  intro cfg hour t setup login play hcw
  unfold run_once_dispatches
  rw [hcw]
  exact flatten_map_nil _ _ hs

/-- C10 witness: unset webhook — the sender is a no-op and a full
successful run dispatches nothing. -/
theorem no_webhook_no_dispatch_witness :
    send_discord_notification none ⟨.loginFailed, "T", ""⟩ = [] ∧
    run_once_dispatches cfgNoHook 10 "T" .ok .success (.success "played") = [] :=
  ⟨(no_webhook_no_dispatch none ⟨.loginFailed, "T", ""⟩ rfl).1,
   (no_webhook_no_dispatch none ⟨.loginFailed, "T", ""⟩ rfl).2
     cfgNoHook 10 "T" .ok .success (.success "played") rfl⟩

/-- C7: the aggregator classification — empty input or a prior connection
failure yields UNREACHABLE; non-empty all-success yields ALL_OK; at least
one success and one failure yields PARTIAL; non-empty all-failure yields
ALL_FAILED — and the classification is invariant under permutation of the
input results. -/
theorem aggregate_classification (connection_failed : Bool) (results : List ProbeResult) :
    (connection_failed = true → aggregate connection_failed results = .UNREACHABLE) ∧
    (results = [] → aggregate connection_failed results = .UNREACHABLE) ∧
    (connection_failed = false → results ≠ [] →
      (∀ r ∈ results, r.succeeded = true) →
      aggregate connection_failed results = .ALL_OK) ∧
    (connection_failed = false →
      (∃ r ∈ results, r.succeeded = true) → (∃ r ∈ results, r.succeeded = false) →
      aggregate connection_failed results = .PARTIAL) ∧
    (connection_failed = false → results ≠ [] →
      (∀ r ∈ results, r.succeeded = false) →
      aggregate connection_failed results = .ALL_FAILED) ∧
    (∀ results2, results.Perm results2 →
      aggregate connection_failed results = aggregate connection_failed results2) := by
  refine ⟨?_, ?_, ?_, ?_, ?_, ?_⟩
  · rintro rfl
    simp [aggregate]
  · rintro rfl
    simp [aggregate]
  · rintro rfl hne hall
    have h1 : results.isEmpty = false := by
      cases results with
      | nil => exact absurd rfl hne
      | cons a l => rfl
    have h2 : results.all (fun r => r.succeeded) = true := List.all_eq_true.mpr hall
    simp [aggregate, h1, h2]
  · rintro rfl ⟨r1, hr1, hs1⟩ ⟨r2, hr2, hs2⟩
    have h1 : results.isEmpty = false := by
      cases results with
      | nil => exact absurd hr1 (List.not_mem_nil r1)
      | cons a l => rfl
    have h2 : results.all (fun r => r.succeeded) = false := by
      refine Bool.eq_false_iff.mpr fun hc => ?_
      have := List.all_eq_true.mp hc r2 hr2
      rw [hs2] at this
      exact Bool.false_ne_true this
    have h3 : results.all (fun r => !r.succeeded) = false := by
      refine Bool.eq_false_iff.mpr fun hc => ?_
      have := List.all_eq_true.mp hc r1 hr1
      rw [hs1] at this
      exact Bool.false_ne_true this
    simp [aggregate, h1, h2, h3]
  · rintro rfl hne hall
    obtain ⟨a, ha⟩ : ∃ a, a ∈ results := by
      cases results with
      | nil => exact absurd rfl hne
      | cons a l => exact ⟨a, by simp⟩
    have h1 : results.isEmpty = false := by
      cases results with
      | nil => exact absurd rfl hne
      | cons a l => rfl
    have h2 : results.all (fun r => r.succeeded) = false := by
      refine Bool.eq_false_iff.mpr fun hc => ?_
      have := List.all_eq_true.mp hc a ha
      rw [hall a ha] at this
      exact Bool.false_ne_true this
    have h3 : results.all (fun r => !r.succeeded) = true :=
      List.all_eq_true.mpr fun r hr => by rw [hall r hr]; rfl
    simp [aggregate, h1, h2, h3]
  · intro results2 hp
    unfold aggregate
    rw [all_eq_of_perm _ hp, all_eq_of_perm _ hp, isEmpty_eq_of_perm hp]

/-- C7 witness: the spec's own examples at concrete probe results —
`[ok, fail]` classifies as PARTIAL, and swapping the two results leaves
the classification unchanged. -/
theorem aggregate_classification_witness :
    aggregate false [pr_ok, pr_fail] = .PARTIAL ∧
    aggregate false [pr_ok, pr_fail] = aggregate false [pr_fail, pr_ok] :=
  ⟨(aggregate_classification false [pr_ok, pr_fail]).2.2.2.1 rfl
      ⟨pr_ok, by simp, rfl⟩ ⟨pr_fail, by simp, rfl⟩,
   (aggregate_classification false [pr_ok, pr_fail]).2.2.2.2.2
      [pr_fail, pr_ok] (List.Perm.swap pr_fail pr_ok [])⟩

/-- C8: the notification policy sends for every aggregated status, with
severity ERROR for ALL_FAILED and UNREACHABLE, WARN for PARTIAL and OK for
ALL_OK; and in the code itself a fully successful check inside the window
dispatches the OK report rather than suppressing it. -/
theorem notification_policy_always_sends (st : Overall) :
    (NotificationPolicy.decide st).send = true ∧
    (NotificationPolicy.decide .ALL_FAILED).severity = .ERROR ∧
    (NotificationPolicy.decide .UNREACHABLE).severity = .ERROR ∧
    (NotificationPolicy.decide .PARTIAL).severity = .WARN ∧
    (NotificationPolicy.decide .ALL_OK).severity = .OK ∧
    (∀ (cfg : Config) (hour : Nat) (t d : String),
      is_within_time_window cfg.start_hour cfg.end_hour hour = true →
      (run_once cfg hour t .ok .success (.success d)).sends = [⟨.playbackOK, t, d⟩] ∧
      severityOf .playbackOK = .OK) := by
  refine ⟨?_, rfl, rfl, rfl, rfl, ?_⟩
  · cases st <;> rfl
  · intro cfg hour t d hw
    exact ⟨by simp [run_once, hw], rfl⟩

/-- C8 witness: the ALL_OK decision sends with OK severity, and a concrete
successful run sends exactly the OK report. -/
theorem notification_policy_always_sends_witness :
    (NotificationPolicy.decide .ALL_OK).send = true ∧
    (run_once cfgEx 10 "T" .ok .success (.success "played")).sends =
      [⟨.playbackOK, "T", "played"⟩] :=
  ⟨(notification_policy_always_sends .ALL_OK).1,
   ((notification_policy_always_sends .ALL_OK).2.2.2.2.2
      cfgEx 10 "T" "played" (by decide)).1⟩

end PlexPing
